import Mathlib

/-!
Shallow embedding of the ScriptureLoop game-economy core.

The server-side core lives in the SQL schema and PL/pgSQL RPC functions
(`award_xp`, `gift_booster`, `redeem_grace_pass`, `run_weekly_league_update`,
`get_leaderboard`) plus the client-side streak logic in
`services/bibleApi.ts` (`updateStreak`).  Tables become lists of records,
`NOW()` becomes explicit clock parameters, and each RPC becomes a pure
function from a database value to a result/database pair.

Numeric conventions: PostgreSQL `FLOOR(int * 1.5)` is a true floor, modelled
with `Int.fdiv (a * 3) 2`; `FLOOR(int / int)` is integer division truncating
toward zero (the inner `/` already truncates), modelled with `Int.tdiv`.
-/

namespace ScriptureLoop

/-- A row of the `users` table (the columns the core logic touches). -/
structure User where
  id : Nat
  name : String
  xp : Int
  weekly_xp : Int
  lifetime_xp : Int
  level : Int
  gems : Int
  streak : Int
  grace_passes_used : Int
  grace_passes_available : Int
  league : Nat
  league_position : Nat
  has_used_morning_bonus : Bool
  has_streak_bonus : Bool
  deriving DecidableEq

/-- A row of the append-only `xp_ledger` table. -/
structure LedgerEntry where
  user_id : Nat
  action_id : String
  amount : Int
  source : String
  meta : String
  deriving DecidableEq

/-- A row of the `boosters` table.  `created_at` is kept as its text
rendering because `gift_booster` compares `created_at::TEXT` to an action id. -/
structure Booster where
  user_id : Nat
  type : String
  expires_at : Int
  is_active : Bool
  created_at : String
  deriving DecidableEq

/-- A row of the `activities` social-feed table. -/
structure Activity where
  user_id : Nat
  type : String
  details : String
  deriving DecidableEq

/-- A row of the `offline_actions` table. -/
structure OfflineAction where
  user_id : Nat
  action_id : String
  action_type : String
  processed : Bool
  deriving DecidableEq

/-- The database state shared by all RPC functions. -/
structure DB where
  users : List User
  ledger : List LedgerEntry
  boosters : List Booster
  activities : List Activity
  offline_actions : List OfflineAction
  deriving DecidableEq

/-- `UPDATE users SET ... WHERE id = uid` as a map over the users list. -/
def updateUserById (uid : Nat) (f : User → User) (us : List User) : List User :=
  us.map fun u => if u.id = uid then f u else u

/-- The jsonb object returned by `award_xp`, with one optional field per
`jsonb_build_object` key that occurs in some branch. -/
structure AwardResult where
  success : Bool
  message : Option String
  error : Option String
  xp_awarded : Option Int
  new_level : Option Int
  gems_earned : Option Int
  deriving DecidableEq

/-- The `v_hour >= 6 AND v_hour < 9` morning-bonus window test of `award_xp`. -/
def morningWindow (hour : Int) : Bool :=
  6 ≤ hour && hour < 9

/-- Type of the most recently expiring active, non-expired booster of a user:
`SELECT type FROM boosters WHERE user_id = uid AND is_active AND expires_at > now
ORDER BY expires_at DESC LIMIT 1`. -/
def activeBoosterType (uid : Nat) (now : Int) (bs : List Booster) : Option String :=
  let active := bs.filter fun b => b.user_id == uid && b.is_active && decide (now < b.expires_at)
  match List.insertionSort (fun a b : Booster => b.expires_at ≤ a.expires_at) active with
  | [] => none
  | b :: _ => some b.type

/-- The booster multiplier branch of `award_xp`: `*3` for a `3x` booster,
`*2` for a `2x` booster, unchanged otherwise. -/
def applyBooster (t : Option String) (amount : Int) : Int :=
  match t with
  | some ty => if ty == "3x" then amount * 3 else if ty == "2x" then amount * 2 else amount
  | none => amount

/-- The `award_xp` RPC function (sql functions file).  `hour` is the UTC hour
extracted from `NOW()` and `now` the timestamp used for booster expiry. -/
def award_xp (hour now : Int) (uid : Nat) (p_amount : Int) (p_source p_action_id p_meta : String)
    (db : DB) : AwardResult × DB :=
  if db.ledger.any (fun e => e.action_id == p_action_id) then
    ({ success := true, message := some "Already processed", error := none,
       xp_awarded := some 0, new_level := none, gems_earned := none }, db)
  else
    match db.users.find? (fun v => v.id == uid) with
    | none =>
      ({ success := false, message := none, error := some "User not found",
         xp_awarded := none, new_level := none, gems_earned := none }, db)
    | some u =>
      let morning := morningWindow hour && !u.has_used_morning_bonus
      let amount1 := if morning then Int.fdiv (p_amount * 3) 2 else p_amount
      let users1 := if morning then
          updateUserById uid (fun v => { v with has_used_morning_bonus := true }) db.users
        else db.users
      let amount2 := if u.has_streak_bonus then amount1 * 2 else amount1
      let users2 := if u.has_streak_bonus then
          updateUserById uid (fun v => { v with has_streak_bonus := false }) users1
        else users1
      let amount3 := applyBooster (activeBoosterType uid now db.boosters) amount2
      let new_level := Int.tdiv (u.xp + amount3) 500 + 1
      let gems_earned := Int.tdiv amount3 100
      let users3 := updateUserById uid (fun v =>
        { v with xp := v.xp + amount3, weekly_xp := v.weekly_xp + amount3,
                 lifetime_xp := v.lifetime_xp + amount3, level := new_level,
                 gems := v.gems + gems_earned }) users2
      ({ success := true, message := none, error := none, xp_awarded := some amount3,
         new_level := some new_level, gems_earned := some gems_earned },
       { db with users := users3,
                 ledger := db.ledger ++ [⟨uid, p_action_id, amount3, p_source, p_meta⟩],
                 activities := db.activities ++
                   [⟨uid, "challenge_completed",
                     "Completed " ++ p_source ++ " and earned " ++ toString amount3 ++ " XP"⟩] })

/-- The jsonb object returned by `gift_booster`. -/
structure GiftResult where
  success : Bool
  message : Option String
  error : Option String
  expires_at : Option Int
  deriving DecidableEq

/-- The `gift_booster` RPC function.  `now` is the numeric `NOW()` timestamp
(in hours, so `+ v_duration` models `+ (v_duration || ' hours')::INTERVAL`)
and `now_text` its text rendering stored into `created_at`. -/
def gift_booster (from_uid to_uid : Nat) (p_booster_type p_action_id : String)
    (now : Int) (now_text : String) (db : DB) : GiftResult × DB :=
  if db.boosters.any (fun b => b.user_id == to_uid && b.created_at == p_action_id) then
    ({ success := true, message := some "Already processed", error := none,
       expires_at := none }, db)
  else if p_booster_type == "2x" ∨ p_booster_type == "3x" then
    let v_duration : Int := if p_booster_type == "2x" then 2 else 1
    let v_expires_at := now + v_duration
    ({ success := true, message := none, error := none, expires_at := some v_expires_at },
     { db with boosters := db.boosters ++ [⟨to_uid, p_booster_type, v_expires_at, true, now_text⟩],
               activities := db.activities ++
                 [⟨from_uid, "booster_gifted",
                   "Gifted a " ++ p_booster_type ++ " XP booster"⟩] })
  else
    ({ success := false, message := none, error := some "Invalid booster type",
       expires_at := none }, db)

/-- The jsonb object returned by `redeem_grace_pass`. -/
structure GraceResult where
  success : Bool
  message : Option String
  error : Option String
  grace_passes_remaining : Option Int
  deriving DecidableEq

/-- The `redeem_grace_pass` RPC function. -/
def redeem_grace_pass (uid : Nat) (p_action_id : String) (db : DB) : GraceResult × DB :=
  if db.offline_actions.any (fun a => a.action_id == p_action_id && a.processed) then
    ({ success := true, message := some "Already processed", error := none,
       grace_passes_remaining := none }, db)
  else
    match db.users.find? (fun v => v.id == uid) with
    | none =>
      ({ success := false, message := none, error := some "User not found",
         grace_passes_remaining := none }, db)
    | some u =>
      if u.grace_passes_available ≤ 0 then
        ({ success := false, message := none, error := some "No grace passes available",
           grace_passes_remaining := none }, db)
      else
        let users1 := updateUserById uid (fun v =>
          { v with grace_passes_used := v.grace_passes_used + 1,
                   grace_passes_available := v.grace_passes_available - 1,
                   streak := if v.streak > 0 then v.streak else 1 }) db.users
        let acts1 := if db.offline_actions.any (fun a => a.action_id == p_action_id) then
            db.offline_actions.map (fun a =>
              if a.action_id == p_action_id then { a with processed := true } else a)
          else
            db.offline_actions ++ [⟨uid, p_action_id, "redeem_grace_pass", true⟩]
        ({ success := true, message := none, error := none,
           grace_passes_remaining := some (u.grace_passes_available - 1) },
         { db with users := users1, offline_actions := acts1 })

/-- The `v_league_sizes` jsonb constant of `run_weekly_league_update`. -/
def leagueSize : Nat → Nat
  | 1 => 50
  | 2 => 30
  | 3 => 20
  | 4 => 10
  | _ => 0

/-- The promotion/relegation decision in the body of the ranking loop:
`cnt` is `v_league_count` (1-based in-league rank), `wxp` the member's
weekly XP read before the reset. -/
def decideLeague (lg cnt : Nat) (wxp : Int) : Nat :=
  if lg < 4 ∧ cnt ≤ 3 ∧ wxp ≥ 500 then lg + 1
  else if lg > 1 ∧ cnt > leagueSize lg - 5 then lg - 1
  else lg

/-- `ORDER BY weekly_xp DESC, xp DESC` used to rank a league's members. -/
def leagueRankOrd (a b : User) : Prop :=
  a.weekly_xp > b.weekly_xp ∨ (a.weekly_xp = b.weekly_xp ∧ a.xp ≥ b.xp)

instance : DecidableRel leagueRankOrd := fun a b => by
  unfold leagueRankOrd; infer_instance

/-- The ranked member list of one league pass:
`SELECT ... FROM users WHERE league = lg ORDER BY weekly_xp DESC, xp DESC`. -/
def rankedMembers (lg : Nat) (us : List User) : List User :=
  List.insertionSort leagueRankOrd (us.filter (fun u => u.league == lg))

/-- The inner loop of `run_weekly_league_update` over one league's ranked
members: bump `v_league_count`, decide the new league, reset weekly XP and
the morning-bonus flag, assign the global rank. -/
def processMembers (lg : Nat) : Nat → Nat → List User → List User × Nat
  | _, rank, [] => ([], rank)
  | cnt, rank, u :: rest =>
    let cnt1 := cnt + 1
    let u1 := { u with league := decideLeague lg cnt1 u.weekly_xp,
                       league_position := rank,
                       weekly_xp := 0,
                       has_used_morning_bonus := false }
    let next := processMembers lg cnt1 (rank + 1) rest
    (u1 :: next.1, next.2)

/-- One iteration of the outer league loop: rank the current members of
league `lg`, update them, and thread the global rank counter.  The inner
`SELECT` of the SQL loop sees the updates of previously processed leagues,
so each pass reads the current state. -/
def processLeague (lg : Nat) (us : List User) (rank : Nat) : List User × Nat :=
  let upd := processMembers lg 0 rank (rankedMembers lg us)
  (us.filter (fun u => !(u.league == lg)) ++ upd.1, upd.2)

/-- The `run_weekly_league_update` RPC function restricted to its effect on
the `users` table: leagues are processed in descending order 4, 3, 2, 1 with
a global rank counter starting at 1. -/
def run_weekly_league_update (us : List User) : List User :=
  let s4 := processLeague 4 us 1
  let s3 := processLeague 3 s4.1 s4.2
  let s2 := processLeague 2 s3.1 s3.2
  (processLeague 1 s2.1 s2.2).1

/-- `ORDER BY league DESC, weekly_xp DESC, xp DESC` of the weekly leaderboard. -/
def weeklyOrd (a b : User) : Prop :=
  a.league > b.league ∨
    (a.league = b.league ∧
      (a.weekly_xp > b.weekly_xp ∨ (a.weekly_xp = b.weekly_xp ∧ a.xp ≥ b.xp)))

instance : DecidableRel weeklyOrd := fun a b => by
  unfold weeklyOrd; infer_instance

/-- `ORDER BY league DESC, lifetime_xp DESC` of the monthly leaderboard. -/
def monthlyOrd (a b : User) : Prop :=
  a.league > b.league ∨ (a.league = b.league ∧ a.lifetime_xp ≥ b.lifetime_xp)

instance : DecidableRel monthlyOrd := fun a b => by
  unfold monthlyOrd; infer_instance

/-- The `get_leaderboard` RPC function: optional league filter, then the
timeframe-specific ordering; a row's rank is its 1-based position. -/
def get_leaderboard (p_league : Option Nat) (p_timeframe : String) (us : List User) :
    List User :=
  let base := us.filter fun u =>
    match p_league with
    | none => true
    | some l => u.league == l
  if p_timeframe == "weekly" then List.insertionSort weeklyOrd base
  else List.insertionSort monthlyOrd base

/-- The streak fields of the client-side user stats (`services/bibleApi.ts`). -/
structure StreakState where
  streak : Int
  last_active_date : String
  today_completed : Bool
  total_days_studied : Int
  deriving DecidableEq

/-- The value returned by `updateStreak` in `services/bibleApi.ts`. -/
structure StreakResult where
  streakBroken : Bool
  previousStreak : Int
  deriving DecidableEq

/-- `updateStreak` from `services/bibleApi.ts`: compare `last_active_date`
with the `today` and `yesterday` date strings, update the streak, and report
whether a streak of at least 3 was broken. -/
def updateStreak (today yesterday : String) (s : StreakState) : StreakState × StreakResult :=
  let newStreak :=
    if s.last_active_date == yesterday then s.streak + 1
    else if !(s.last_active_date == today) then 1
    else s.streak
  let broken :=
    if s.last_active_date == yesterday then false
    else if !(s.last_active_date == today) then decide (s.streak ≥ 3)
    else false
  ({ streak := newStreak, last_active_date := today, today_completed := true,
     total_days_studied := s.total_days_studied + 1 },
   { streakBroken := broken, previousStreak := s.streak })

/-- A user row with the schema's column defaults. -/
def baseUser : User :=
  { id := 0, name := "", xp := 0, weekly_xp := 0, lifetime_xp := 0,
    level := 1, gems := 50, streak := 0, grace_passes_used := 0,
    grace_passes_available := 1, league := 1, league_position := 0,
    has_used_morning_bonus := false, has_streak_bonus := false }

/-- Four Bronze users with weekly XP 800, 600, 550, 300 (promotion scenario). -/
def bronzeScenario : List User :=
  [{ baseUser with id := 1, xp := 2000, lifetime_xp := 2000, weekly_xp := 800 },
   { baseUser with id := 2, xp := 1500, lifetime_xp := 1500, weekly_xp := 600 },
   { baseUser with id := 3, xp := 1200, lifetime_xp := 1200, weekly_xp := 550 },
   { baseUser with id := 4, xp := 800, lifetime_xp := 800, weekly_xp := 300 }]

/-- Expected state after the weekly update on `bronzeScenario`. -/
def bronzeAfter : List User :=
  [{ baseUser with id := 1, xp := 2000, lifetime_xp := 2000, weekly_xp := 0,
                   league := 2, league_position := 1 },
   { baseUser with id := 2, xp := 1500, lifetime_xp := 1500, weekly_xp := 0,
                   league := 2, league_position := 2 },
   { baseUser with id := 3, xp := 1200, lifetime_xp := 1200, weekly_xp := 0,
                   league := 2, league_position := 3 },
   { baseUser with id := 4, xp := 800, lifetime_xp := 800, weekly_xp := 0,
                   league := 1, league_position := 4 }]

/-- A Silver league with only six members, all below the promotion threshold:
under the capacity-based cutoff (30 - 5 = 25) nobody is relegated, whereas a
member-count-based cutoff (6 - 5 = 1) would relegate five of them. -/
def silverSix : List User :=
  [{ baseUser with id := 1, league := 2, weekly_xp := 100 },
   { baseUser with id := 2, league := 2, weekly_xp := 90 },
   { baseUser with id := 3, league := 2, weekly_xp := 80 },
   { baseUser with id := 4, league := 2, weekly_xp := 70 },
   { baseUser with id := 5, league := 2, weekly_xp := 60 },
   { baseUser with id := 6, league := 2, weekly_xp := 50 }]

/-- Expected state after the weekly update on `silverSix`: everybody stays. -/
def silverSixAfter : List User :=
  [{ baseUser with id := 1, league := 2, weekly_xp := 0, league_position := 1 },
   { baseUser with id := 2, league := 2, weekly_xp := 0, league_position := 2 },
   { baseUser with id := 3, league := 2, weekly_xp := 0, league_position := 3 },
   { baseUser with id := 4, league := 2, weekly_xp := 0, league_position := 4 },
   { baseUser with id := 5, league := 2, weekly_xp := 0, league_position := 5 },
   { baseUser with id := 6, league := 2, weekly_xp := 0, league_position := 6 }]

/-- Bonus-compounding scenario: morning bonus unused, streak-bonus flag held,
one active `2x` booster that has not expired at time 0. -/
def dbBonus : DB :=
  { users := [{ baseUser with id := 1, has_streak_bonus := true }],
    ledger := [], boosters := [⟨1, "2x", 100, true, "2024-06-01 05:00:00+00"⟩],
    activities := [], offline_actions := [] }

/-- A database with a single default user and nothing else. -/
def dbOneUser : DB :=
  { users := [{ baseUser with id := 1 }], ledger := [], boosters := [],
    activities := [], offline_actions := [] }

/-- Two users for the booster-gift scenario. -/
def dbGift : DB :=
  { users := [{ baseUser with id := 1 }, { baseUser with id := 2 }],
    ledger := [], boosters := [], activities := [], offline_actions := [] }

/-- The user of the grace-pass scenario: two passes available, streak 0. -/
def graceUser : User :=
  { baseUser with id := 1, grace_passes_available := 2 }

/-- The grace-pass scenario user after one successful redemption. -/
def graceUserAfter : User :=
  { baseUser with id := 1, grace_passes_available := 1, grace_passes_used := 1,
                  streak := 1 }

/-- Grace-pass scenario: `gracePassesAvailable = 2`, `streak = 0`. -/
def dbGrace : DB :=
  { users := [graceUser], ledger := [], boosters := [], activities := [],
    offline_actions := [] }

/-- A replayed-action database: the ledger already holds action id `dup1`,
and there is no user record at all. -/
def dbReplay : DB :=
  { users := [], ledger := [⟨1, "dup1", 50, "Daily Challenge", "\x7b\x7d"⟩],
    boosters := [], activities := [], offline_actions := [] }

/-- A Bronze user with huge weekly XP and a Silver user with tiny weekly XP:
the league column must still dominate the leaderboard ordering. -/
def lbTwo : List User :=
  [{ baseUser with id := 1, league := 1, xp := 5000, weekly_xp := 1000,
                   lifetime_xp := 5000 },
   { baseUser with id := 2, league := 2, xp := 20, weekly_xp := 10,
                   lifetime_xp := 20 }]

/-- The weekly leaderboard over `lbTwo`: the Silver user comes first. -/
def lbTwoSorted : List User :=
  [{ baseUser with id := 2, league := 2, xp := 20, weekly_xp := 10,
                   lifetime_xp := 20 },
   { baseUser with id := 1, league := 1, xp := 5000, weekly_xp := 1000,
                   lifetime_xp := 5000 }]

instance : IsTotal User weeklyOrd :=
  ⟨fun a b => by unfold weeklyOrd; omega⟩

instance : IsTrans User weeklyOrd :=
  ⟨fun a b c hab hbc => by unfold weeklyOrd at *; omega⟩

instance : IsTotal User monthlyOrd :=
  ⟨fun a b => by unfold monthlyOrd; omega⟩

instance : IsTrans User monthlyOrd :=
  ⟨fun a b c hab hbc => by unfold monthlyOrd at *; omega⟩

/-- In any list sorted by a relation that is monotone in `league`, an element
with a strictly larger league sits strictly earlier. -/
theorem sorted_league_ge {r : User → User → Prop}
    (hr : ∀ a b, r a b → b.league ≤ a.league)
    {l : List User} (hs : l.Sorted r) {i j : Fin l.length}
    (h : (l.get j).league < (l.get i).league) : i < j := by
  rcases lt_trichotomy i j with hij | hij | hij
  · exact hij
  · subst hij; exact absurd h (lt_irrefl _)
  · exact absurd (hr _ _ (hs.rel_get_of_lt hij)) (by omega)

/-- The ranking walk preserves the number of members. -/
theorem processMembers_length (lg c r : Nat) (ms : List User) :
    (processMembers lg c r ms).1.length = ms.length := by
  induction ms generalizing c r with
  | nil => rfl
  | cons u rest ih => simp [processMembers, ih]

/-- The `k`-th member processed by the ranking walk gets the league decided
for in-league rank `c + k + 1`, the global rank `r + k`, weekly XP zero and a
cleared morning-bonus flag, with all other columns untouched. -/
theorem processMembers_get (lg c r : Nat) (ms : List User) (k : Nat)
    (hk : k < ms.length) :
    (processMembers lg c r ms).1.get ⟨k, by rw [processMembers_length]; exact hk⟩
      = { ms.get ⟨k, hk⟩ with
          league := decideLeague lg (c + k + 1) (ms.get ⟨k, hk⟩).weekly_xp,
          league_position := r + k, weekly_xp := 0,
          has_used_morning_bonus := false } := by
  induction ms generalizing c r k with
  | nil => exact absurd hk (Nat.not_lt_zero k)
  | cons u rest ih =>
    cases k with
    | zero => simp [processMembers]
    | succ k =>
      have hk2 : k < rest.length := Nat.lt_of_succ_lt_succ hk
      have harith1 : c + 1 + k + 1 = c + (k + 1) + 1 := by omega
      have harith2 : r + 1 + k = r + (k + 1) := by omega
      have := ih (c + 1) (r + 1) k hk2
      rw [harith1, harith2] at this
      simpa [processMembers] using this

/-- Looking up a user after an id-preserving per-row update returns the
updated image of the original lookup. -/
theorem find?_updateUserById (uid : Nat) (f : User → User)
    (hf : ∀ v, (f v).id = v.id) (us : List User) :
    (updateUserById uid f us).find? (fun v => v.id == uid)
      = (us.find? (fun v => v.id == uid)).map f := by
  induction us with
  | nil => rfl
  | cons a rest ih =>
    unfold updateUserById at ih ⊢
    by_cases h : a.id = uid
    · simp [List.find?_cons, h, hf]
    · simp [List.find?_cons, h, hf, ih]

/-- C10: a replayed `actionId` short-circuits `award_xp` before the
user-existence check — even with no user record at all, the call reports
success with zero XP and leaves the database untouched. -/
theorem award_xp_replay_skips_user_check (hour now : Int) (uid : Nat) (amt : Int)
    (src aid pm : String) (db : DB)
    (hdup : db.ledger.any (fun e => e.action_id == aid) = true)
    (hnouser : db.users.find? (fun v => v.id == uid) = none) :
    award_xp hour now uid amt src aid pm db
      = ({ success := true, message := some "Already processed", error := none,
           xp_awarded := some 0, new_level := none, gems_earned := none }, db) := by
  simp [award_xp, hdup]

/-- Witness for C10: replaying action id `dup1` on a database whose ledger
holds it but whose users table is empty. -/
theorem award_xp_replay_skips_user_check_witness :
    dbReplay.ledger.any (fun e => e.action_id == "dup1") = true ∧
    dbReplay.users.find? (fun v => v.id == 7) = none ∧
    award_xp 12 0 7 50 "Daily Challenge" "dup1" "\x7b\x7d" dbReplay
      = ({ success := true, message := some "Already processed", error := none,
           xp_awarded := some 0, new_level := none, gems_earned := none }, dbReplay) :=
  ⟨by decide, by decide,
   award_xp_replay_skips_user_check 12 0 7 50 "Daily Challenge" "dup1" "\x7b\x7d" dbReplay
     (by decide) (by decide)⟩

/-- C6 counterexample: `award_xp` called with the negative base amount -100
on an existing user succeeds (no `InvalidArgument` failure) and mutates the
database, contradicting the claim as stated. -/
theorem award_xp_negative_not_rejected :
    (award_xp 12 0 1 (-100) "Penalty" "neg1" "\x7b\x7d" dbOneUser).1.success = true ∧
    (award_xp 12 0 1 (-100) "Penalty" "neg1" "\x7b\x7d" dbOneUser).1.error = none ∧
    (award_xp 12 0 1 (-100) "Penalty" "neg1" "\x7b\x7d" dbOneUser).2 ≠ dbOneUser := by
  decide

/-- C6 amended: `award_xp` performs no sign validation — a call with a
negative base amount for an existing user and a fresh action id succeeds,
returns a (negative) XP delta, and writes a ledger entry. -/
theorem award_xp_negative_processed (hour now : Int) (uid : Nat) (amt : Int)
    (src aid pm : String) (db : DB) (u : User)
    (hneg : amt < 0)
    (hfresh : db.ledger.any (fun e => e.action_id == aid) = false)
    (huser : db.users.find? (fun v => v.id == uid) = some u) :
    (award_xp hour now uid amt src aid pm db).1.success = true ∧
    (award_xp hour now uid amt src aid pm db).1.error = none ∧
    (award_xp hour now uid amt src aid pm db).2.ledger.length = db.ledger.length + 1 := by
  simp [award_xp, hfresh, huser]

/-- Witness for the amended C6: the -100 penalty call on `dbOneUser`. -/
theorem award_xp_negative_processed_witness :
    (-100 : Int) < 0 ∧
    dbOneUser.ledger.any (fun e => e.action_id == "neg1") = false ∧
    dbOneUser.users.find? (fun v => v.id == 1) = some { baseUser with id := 1 } ∧
    ((award_xp 12 0 1 (-100) "Penalty" "neg1" "\x7b\x7d" dbOneUser).1.success = true ∧
     (award_xp 12 0 1 (-100) "Penalty" "neg1" "\x7b\x7d" dbOneUser).1.error = none ∧
     (award_xp 12 0 1 (-100) "Penalty" "neg1" "\x7b\x7d" dbOneUser).2.ledger.length
       = dbOneUser.ledger.length + 1) :=
  ⟨by decide, by decide, by decide,
   award_xp_negative_processed 12 0 1 (-100) "Penalty" "neg1" "\x7b\x7d" dbOneUser
     { baseUser with id := 1 } (by decide) (by decide) (by decide)⟩

/-- C7 (code bug): `gift_booster`'s idempotency check compares
`created_at::TEXT` with the action id, which never matches a caller-chosen
token, so two calls with identical arguments both take the insert path and
create two boosters for the recipient. -/
theorem gift_booster_not_idempotent :
    (gift_booster 1 2 "2x" "gift-abc" 100 "2024-06-01 10:00:00+00" dbGift).1.success = true ∧
    (gift_booster 1 2 "2x" "gift-abc" 100 "2024-06-01 10:00:00+00"
        (gift_booster 1 2 "2x" "gift-abc" 100 "2024-06-01 10:00:00+00" dbGift).2).1.success
      = true ∧
    (gift_booster 1 2 "2x" "gift-abc" 100 "2024-06-01 10:00:00+00"
        (gift_booster 1 2 "2x" "gift-abc" 100 "2024-06-01 10:00:00+00" dbGift).2).1.message
      = none ∧
    ((gift_booster 1 2 "2x" "gift-abc" 100 "2024-06-01 10:00:00+00"
        (gift_booster 1 2 "2x" "gift-abc" 100 "2024-06-01 10:00:00+00" dbGift).2).2.boosters.filter
      (fun b => b.user_id == 2)).length = 2 := by
  decide

/-- C1: replaying `award_xp` with identical arguments is a no-op — the second
call returns success with a zero XP delta and leaves the state produced by
the first call unchanged, and the ledger holds exactly one entry for the
action id. -/
theorem award_xp_idempotent (hour now : Int) (uid : Nat) (amt : Int)
    (src aid pm : String) (db : DB) (u : User)
    (hfresh : db.ledger.any (fun e => e.action_id == aid) = false)
    (huser : db.users.find? (fun v => v.id == uid) = some u) :
    award_xp hour now uid amt src aid pm (award_xp hour now uid amt src aid pm db).2
      = ({ success := true, message := some "Already processed", error := none,
           xp_awarded := some 0, new_level := none, gems_earned := none },
         (award_xp hour now uid amt src aid pm db).2) ∧
    (award_xp hour now uid amt src aid pm db).2.ledger.countP
      (fun e => e.action_id == aid) = 1 := by
  have hcount : db.ledger.countP (fun e => e.action_id == aid) = 0 :=
    List.countP_eq_zero.mpr (List.any_eq_false.mp hfresh)
  constructor
  · simp [award_xp, hfresh, huser, List.any_append]
  · simp [award_xp, hfresh, huser, List.countP_append, hcount]

/-- Witness for C1: a 50 XP award replayed on a one-user database. -/
theorem award_xp_idempotent_witness :
    dbOneUser.ledger.any (fun e => e.action_id == "a1") = false ∧
    dbOneUser.users.find? (fun v => v.id == 1) = some { baseUser with id := 1 } ∧
    (award_xp 12 0 1 50 "Daily Challenge" "a1" "\x7b\x7d"
        (award_xp 12 0 1 50 "Daily Challenge" "a1" "\x7b\x7d" dbOneUser).2
      = ({ success := true, message := some "Already processed", error := none,
           xp_awarded := some 0, new_level := none, gems_earned := none },
         (award_xp 12 0 1 50 "Daily Challenge" "a1" "\x7b\x7d" dbOneUser).2) ∧
     (award_xp 12 0 1 50 "Daily Challenge" "a1" "\x7b\x7d" dbOneUser).2.ledger.countP
       (fun e => e.action_id == "a1") = 1) :=
  ⟨by decide, by decide,
   award_xp_idempotent 12 0 1 50 "Daily Challenge" "a1" "\x7b\x7d" dbOneUser
     { baseUser with id := 1 } (by decide) (by decide)⟩

/-- C2: in the unfiltered leaderboard of either timeframe, a member of a
strictly higher league is ranked strictly before a member of a lower league,
whatever their XP columns hold. -/
theorem get_leaderboard_league_dominates (tf : String) (us : List User)
    (l : List User) (hl : get_leaderboard none tf us = l)
    (i j : Fin l.length)
    (h : (l.get j).league < (l.get i).league) : i < j := by
  by_cases htf : (tf == "weekly") = true
  · have hs : l.Sorted weeklyOrd := by
      rw [← hl]
      simp only [get_leaderboard, htf, if_true]
      exact List.sorted_insertionSort _ _
    exact sorted_league_ge (fun a b hab => by unfold weeklyOrd at hab; omega) hs h
  · have hs : l.Sorted monthlyOrd := by
      rw [← hl]
      simp only [get_leaderboard, htf, if_false]
      exact List.sorted_insertionSort _ _
    exact sorted_league_ge (fun a b hab => by unfold monthlyOrd at hab; omega) hs h

/-- Witness for C2: on `lbTwo` the Silver user with 10 weekly XP outranks the
Bronze user with 1000 weekly XP. -/
theorem get_leaderboard_league_dominates_witness :
    get_leaderboard none "weekly" lbTwo = lbTwoSorted ∧
    (lbTwoSorted.get ⟨1, by decide⟩).league < (lbTwoSorted.get ⟨0, by decide⟩).league ∧
    (⟨0, by decide⟩ : Fin lbTwoSorted.length) < ⟨1, by decide⟩ :=
  ⟨by decide, by decide,
   get_leaderboard_league_dominates "weekly" lbTwo lbTwoSorted (by decide)
     ⟨0, by decide⟩ ⟨1, by decide⟩ (by decide)⟩

/-- C3: with an unused morning bonus at an hour in [6, 9), a held streak-bonus
flag and an active `2x` booster, the awarded amount is
`floor(base * 1.5) * 2 * 2` — the floor happens only at the morning step —
and for base 100 the full call awards 600 XP. -/
theorem award_xp_bonus_compounding :
    (∀ (hour now : Int) (uid : Nat) (amt : Int) (src aid pm : String) (db : DB) (u : User),
       db.ledger.any (fun e => e.action_id == aid) = false →
       db.users.find? (fun v => v.id == uid) = some u →
       6 ≤ hour → hour < 9 →
       u.has_used_morning_bonus = false →
       u.has_streak_bonus = true →
       activeBoosterType uid now db.boosters = some "2x" →
       (award_xp hour now uid amt src aid pm db).1.xp_awarded
         = some (Int.fdiv (amt * 3) 2 * 2 * 2)) ∧
    (award_xp 7 0 1 100 "Daily Challenge" "b1" "\x7b\x7d" dbBonus).1.xp_awarded = some 600 := by
  constructor
  · intro hour now uid amt src aid pm db u hfresh huser h6 h9 hmb hsb hbt
    have hmw : morningWindow hour = true := by
      simp only [morningWindow, Bool.and_eq_true, decide_eq_true_eq]
      omega
    simp [award_xp, hfresh, huser, hmw, hmb, hsb, hbt, applyBooster]
  · decide

/-- Witness for C3: the general bonus-order statement applied to the concrete
scenario behind the 600 XP figure. -/
theorem award_xp_bonus_compounding_witness :
    dbBonus.ledger.any (fun e => e.action_id == "b1") = false ∧
    dbBonus.users.find? (fun v => v.id == 1)
      = some { baseUser with id := 1, has_streak_bonus := true } ∧
    activeBoosterType 1 0 dbBonus.boosters = some "2x" ∧
    (award_xp 7 0 1 100 "Daily Challenge" "b1" "\x7b\x7d" dbBonus).1.xp_awarded
      = some (Int.fdiv (100 * 3) 2 * 2 * 2) :=
  ⟨by decide, by decide, by decide,
   award_xp_bonus_compounding.1 7 0 1 100 "Daily Challenge" "b1" "\x7b\x7d" dbBonus
     { baseUser with id := 1, has_streak_bonus := true }
     (by decide) (by decide) (by decide) (by decide) (by decide) (by decide) (by decide)⟩

/-- C9: `updateStreak` increments the streak when the last active date is
yesterday, keeps it when it is today, resets it to 1 otherwise; it reports a
broken streak (with the previous value) exactly when a streak of at least 3
was broken, and always stamps today as the last active date. -/
theorem updateStreak_cases (today yesterday : String) (s : StreakState)
    (hne : today ≠ yesterday) :
    (s.last_active_date = yesterday →
       (updateStreak today yesterday s).1.streak = s.streak + 1) ∧
    (s.last_active_date = today →
       (updateStreak today yesterday s).1.streak = s.streak) ∧
    (s.last_active_date ≠ yesterday → s.last_active_date ≠ today →
       (updateStreak today yesterday s).1.streak = 1) ∧
    ((updateStreak today yesterday s).2.streakBroken = true
       ↔ (s.last_active_date ≠ yesterday ∧ s.last_active_date ≠ today ∧ 3 ≤ s.streak)) ∧
    (updateStreak today yesterday s).2.previousStreak = s.streak ∧
    (updateStreak today yesterday s).1.last_active_date = today := by
  by_cases h1 : s.last_active_date = yesterday
  · refine ⟨fun _ => by simp [updateStreak, h1],
      fun h2 => absurd (h1.symm.trans h2).symm hne,
      fun h1' _ => absurd h1 h1',
      by simp [updateStreak, h1],
      by simp [updateStreak],
      by simp [updateStreak]⟩
  · by_cases h2 : s.last_active_date = today
    · refine ⟨fun h1' => absurd h1' h1,
        fun _ => by simp [updateStreak, h1, h2, hne],
        fun _ h2' => absurd h2 h2',
        by simp [updateStreak, h1, h2, hne],
        by simp [updateStreak],
        by simp [updateStreak]⟩
    · refine ⟨fun h1' => absurd h1' h1,
        fun h2' => absurd h2' h2,
        fun _ _ => by simp [updateStreak, h1, h2],
        by simp [updateStreak, h1, h2],
        by simp [updateStreak],
        by simp [updateStreak]⟩

/-- C4: in a league pass below the top league, exactly the members ranked in
the top 3 by (weekly XP desc, total XP desc) with weekly XP at least 500 are
moved up one tier; on the four-Bronze-user scenario [800, 600, 550, 300] the
full weekly update promotes the top three to Silver, keeps the fourth in
Bronze, and resets weekly XP and the morning-bonus flag for all four. -/
theorem weekly_update_promotion :
    (∀ (lg rank k : Nat) (us : List User) (hk : k < (rankedMembers lg us).length),
       lg < 4 →
       (((processMembers lg 0 rank (rankedMembers lg us)).1.get
           ⟨k, by rw [processMembers_length]; exact hk⟩).league = lg + 1
        ↔ k < 3 ∧ 500 ≤ ((rankedMembers lg us).get ⟨k, hk⟩).weekly_xp)) ∧
    run_weekly_league_update bronzeScenario = bronzeAfter := by
  constructor
  · intro lg rank k us hk hlg
    rw [processMembers_get lg 0 rank _ k hk]
    show decideLeague lg (0 + k + 1) _ = lg + 1 ↔ _
    unfold decideLeague
    split_ifs with hpro hrel <;> omega
  · decide

/-- Witness for C4: the promotion rule applied to the top Bronze user of the
scenario, together with the concrete weekly-update run. -/
theorem weekly_update_promotion_witness :
    (0 < (rankedMembers 1 bronzeScenario).length ∧ 1 < 4 ∧
     (((processMembers 1 0 1 (rankedMembers 1 bronzeScenario)).1.get
         ⟨0, by decide⟩).league = 1 + 1
       ↔ 0 < 3 ∧ 500 ≤ ((rankedMembers 1 bronzeScenario).get ⟨0, by decide⟩).weekly_xp)) ∧
    run_weekly_league_update bronzeScenario = bronzeAfter :=
  ⟨⟨by decide, by decide,
    weekly_update_promotion.1 1 1 0 bronzeScenario (by decide) (by decide)⟩,
   weekly_update_promotion.2⟩

/-- C5: in a league pass above the bottom league, exactly the members whose
in-league rank exceeds the league capacity minus 5 and who are not promoted
are moved down one tier, and members neither promoted nor beyond the cutoff
keep their league; the cutoff uses the fixed capacity, not the member count,
so a six-member Silver league relegates nobody in the full weekly update. -/
theorem weekly_update_relegation :
    (∀ (lg rank k : Nat) (us : List User) (hk : k < (rankedMembers lg us).length),
       1 < lg →
       ((((processMembers lg 0 rank (rankedMembers lg us)).1.get
            ⟨k, by rw [processMembers_length]; exact hk⟩).league = lg - 1
         ↔ (leagueSize lg - 5 < k + 1 ∧
            ¬(lg < 4 ∧ k < 3 ∧ 500 ≤ ((rankedMembers lg us).get ⟨k, hk⟩).weekly_xp))) ∧
        (((processMembers lg 0 rank (rankedMembers lg us)).1.get
            ⟨k, by rw [processMembers_length]; exact hk⟩).league = lg
         ↔ (¬(lg < 4 ∧ k < 3 ∧ 500 ≤ ((rankedMembers lg us).get ⟨k, hk⟩).weekly_xp) ∧
            ¬(leagueSize lg - 5 < k + 1))))) ∧
    run_weekly_league_update silverSix = silverSixAfter := by
  constructor
  · intro lg rank k us hk hlg
    rw [processMembers_get lg 0 rank _ k hk]
    constructor
    · show decideLeague lg (0 + k + 1) _ = lg - 1 ↔ _
      unfold decideLeague
      split_ifs with hpro hrel <;> omega
    · show decideLeague lg (0 + k + 1) _ = lg ↔ _
      unfold decideLeague
      split_ifs with hpro hrel <;> omega
  · decide

/-- Witness for C5: the relegation rule applied to the lowest-ranked member
of the six-member Silver league, together with the concrete run in which
nobody is relegated despite five members sitting in the bottom five. -/
theorem weekly_update_relegation_witness :
    (5 < (rankedMembers 2 silverSix).length ∧ 1 < 2 ∧
     ((((processMembers 2 0 1 (rankedMembers 2 silverSix)).1.get
          ⟨5, by decide⟩).league = 2 - 1
        ↔ (leagueSize 2 - 5 < 5 + 1 ∧
           ¬(2 < 4 ∧ 5 < 3 ∧ 500 ≤ ((rankedMembers 2 silverSix).get ⟨5, by decide⟩).weekly_xp))) ∧
      (((processMembers 2 0 1 (rankedMembers 2 silverSix)).1.get
          ⟨5, by decide⟩).league = 2
        ↔ (¬(2 < 4 ∧ 5 < 3 ∧ 500 ≤ ((rankedMembers 2 silverSix).get ⟨5, by decide⟩).weekly_xp) ∧
           ¬(leagueSize 2 - 5 < 5 + 1))))) ∧
    run_weekly_league_update silverSix = silverSixAfter :=
  ⟨⟨by decide, by decide,
    weekly_update_relegation.1 2 1 5 silverSix (by decide) (by decide)⟩,
   weekly_update_relegation.2⟩

/-- C8: `redeem_grace_pass` fails when no grace pass is available and leaves
the state unchanged; on success it increments the used counter, decrements
the available counter and restores a zero streak to 1; replaying the same
action id after a success changes nothing while reporting success; and the
concrete scenario (2 passes available, streak 0, token `tok1`) behaves as
the claim describes. -/
theorem redeem_grace_pass_spec (uid : Nat) (aid : String) (db : DB) (u : User)
    (hnp : db.offline_actions.any (fun a => a.action_id == aid && a.processed) = false)
    (hu : db.users.find? (fun v => v.id == uid) = some u) :
    (u.grace_passes_available ≤ 0 →
       redeem_grace_pass uid aid db
         = ({ success := false, message := none, error := some "No grace passes available",
              grace_passes_remaining := none }, db)) ∧
    (0 < u.grace_passes_available →
       ((redeem_grace_pass uid aid db).1.success = true ∧
        (redeem_grace_pass uid aid db).2.users.find? (fun v => v.id == uid)
          = some { u with grace_passes_used := u.grace_passes_used + 1,
                          grace_passes_available := u.grace_passes_available - 1,
                          streak := if u.streak > 0 then u.streak else 1 } ∧
        redeem_grace_pass uid aid (redeem_grace_pass uid aid db).2
          = ({ success := true, message := some "Already processed", error := none,
               grace_passes_remaining := none }, (redeem_grace_pass uid aid db).2))) ∧
    ((redeem_grace_pass 1 "tok1" dbGrace).1.success = true ∧
     (redeem_grace_pass 1 "tok1" dbGrace).2.users = [graceUserAfter] ∧
     redeem_grace_pass 1 "tok1" (redeem_grace_pass 1 "tok1" dbGrace).2
       = ({ success := true, message := some "Already processed", error := none,
            grace_passes_remaining := none }, (redeem_grace_pass 1 "tok1" dbGrace).2)) := by
  refine ⟨?_, ?_, by decide⟩
  · intro hle
    simp [redeem_grace_pass, hnp, hu, hle]
  · intro hpos
    have hle : ¬(u.grace_passes_available ≤ 0) := by omega
    have h1 : redeem_grace_pass uid aid db =
        ({ success := true, message := none, error := none,
           grace_passes_remaining := some (u.grace_passes_available - 1) },
         { db with
             users := updateUserById uid (fun v =>
               { v with grace_passes_used := v.grace_passes_used + 1,
                        grace_passes_available := v.grace_passes_available - 1,
                        streak := if v.streak > 0 then v.streak else 1 }) db.users,
             offline_actions :=
               if db.offline_actions.any (fun a => a.action_id == aid) then
                 db.offline_actions.map (fun a =>
                   if a.action_id == aid then { a with processed := true } else a)
               else
                 db.offline_actions ++ [⟨uid, aid, "redeem_grace_pass", true⟩] }) := by
      simp [redeem_grace_pass, hnp, hu, hle]
    rw [h1]
    refine ⟨rfl, ?_, ?_⟩
    · dsimp only
      rw [find?_updateUserById uid
            (fun v => { v with grace_passes_used := v.grace_passes_used + 1,
                               grace_passes_available := v.grace_passes_available - 1,
                               streak := if v.streak > 0 then v.streak else 1 })
            (fun v => rfl) db.users, hu]
      rfl
    · have hproc :
          (if db.offline_actions.any (fun a => a.action_id == aid) then
             db.offline_actions.map (fun a =>
               if a.action_id == aid then { a with processed := true } else a)
           else
             db.offline_actions ++ [⟨uid, aid, "redeem_grace_pass", true⟩]).any
            (fun a => a.action_id == aid && a.processed) = true := by
        by_cases hdup : db.offline_actions.any (fun a => a.action_id == aid) = true
        · rw [if_pos hdup]
          obtain ⟨a, ha, hpa⟩ := List.any_eq_true.mp hdup
          refine List.any_eq_true.mpr ⟨_, List.mem_map_of_mem _ ha, ?_⟩
          simp [hpa]
        · rw [if_neg hdup]
          simp [List.any_append]
      dsimp only
      unfold redeem_grace_pass
      rw [if_pos hproc]

/-- Witness for C8: the grace-pass scenario database with two passes. -/
theorem redeem_grace_pass_spec_witness :
    dbGrace.offline_actions.any (fun a => a.action_id == "tok1" && a.processed) = false ∧
    dbGrace.users.find? (fun v => v.id == 1) = some graceUser ∧
    (0 < graceUser.grace_passes_available →
       ((redeem_grace_pass 1 "tok1" dbGrace).1.success = true ∧
        (redeem_grace_pass 1 "tok1" dbGrace).2.users.find? (fun v => v.id == 1)
          = some { graceUser with
                     grace_passes_used := graceUser.grace_passes_used + 1,
                     grace_passes_available := graceUser.grace_passes_available - 1,
                     streak := if graceUser.streak > 0 then graceUser.streak else 1 } ∧
        redeem_grace_pass 1 "tok1" (redeem_grace_pass 1 "tok1" dbGrace).2
          = ({ success := true, message := some "Already processed", error := none,
               grace_passes_remaining := none }, (redeem_grace_pass 1 "tok1" dbGrace).2))) :=
  ⟨by decide, by decide,
   (redeem_grace_pass_spec 1 "tok1" dbGrace graceUser (by decide) (by decide)).2.1⟩

/-- Witness for C9: a 5-day streak continued from yesterday. -/
theorem updateStreak_cases_witness :
    ("2024-06-02" : String) ≠ "2024-06-01" ∧
    (updateStreak "2024-06-02" "2024-06-01"
        { streak := 5, last_active_date := "2024-06-01", today_completed := false,
          total_days_studied := 9 }).1.streak = 5 + 1 :=
  ⟨by decide,
   (updateStreak_cases "2024-06-02" "2024-06-01"
      { streak := 5, last_active_date := "2024-06-01", today_completed := false,
        total_days_studied := 9 } (by decide)).1 rfl⟩

end ScriptureLoop
